import Mathlib

/-!
Verification of the data acquisition and normalization pipeline of
`src/principal.py` (painel-top5ligas).

The embedded code is `load_data` (lines 45-70) together with the constant
tables `COLUMN_TRANSLATIONS` (lines 13-32) and `SEASONS` (lines 35-42).

Embedding choices:
* A cell of a parsed table is a `Value`: an integer, a string, or a null.
  `pd.read_html` materializes missing cells (and cells unparseable in the
  inferred column type) as NaN, and `pl.from_pandas` (default
  `nan_to_null=True`) turns NaN into a polars null; both are modelled by
  `Value.nullV`.
* A pandas DataFrame as returned by `pd.read_html` is a `PandasDF`: its
  column index is either a flat list of names or a MultiIndex, i.e. one
  list of header levels per column.  A polars DataFrame (and a pandas
  frame after header flattening) is a `FlatDF`.
* The network and the HTML parser are external effects; a call of the
  `try` block of `load_data` is summarized by a `TryOutcome` oracle value:
  either `requests.get` raised, or `pd.read_html` raised (this is also
  where a non-2xx error page ends up, since `requests.get` does not raise
  on status codes), or a list of parsed tables was produced.
* `@st.cache_data` memoizes the decorated function on its argument tuple
  and stores whatever value the function returns — including `None`; it is
  modelled by an association list from `season_code` to the stored return
  value, threaded explicitly.
-/

namespace Principal

/-- A scalar cell of a parsed statistics table.  `nullV` is a missing value
(pandas NaN / polars null). -/
inductive Value where
  | intV : Int → Value
  | strV : String → Value
  | nullV : Value
deriving DecidableEq, Repr

/-- A row contains a missing value. -/
def rowHasNull (r : List Value) : Bool :=
  r.any (fun v => v == Value.nullV)

/-- The column index of a pandas DataFrame: a flat `Index` of names, or a
`MultiIndex` whose entries are the stacked header levels of each column. -/
inductive Columns where
  | flat : List String → Columns
  | multi : List (List String) → Columns
deriving DecidableEq, Repr

/-- A pandas DataFrame as returned by `pd.read_html`: a column index and a
list of rows (each row a list of cells, one per column). -/
structure PandasDF where
  cols : Columns
  rows : List (List Value)
deriving DecidableEq, Repr

/-- A flat-headed table: a pandas frame after header flattening, and also
the polars DataFrame produced by `pl.from_pandas`. -/
structure FlatDF where
  cols : List String
  rows : List (List Value)
deriving DecidableEq, Repr

/-- The dictionary `COLUMN_TRANSLATIONS` of `src/principal.py` lines 13-32. -/
def COLUMN_TRANSLATIONS : List (String × String) :=
  [("Class.", "Classificação"),
   ("País", "País"),
   ("LgRk", "Posição na Liga"),
   ("MP", "Jogos Disputados"),
   ("V", "Vitórias"),
   ("E", "Empates"),
   ("D", "Derrotas"),
   ("GP", "Gols pró"),
   ("GC", "Gols contra"),
   ("GD", "Diferença de Gols"),
   ("Pt", "Pontos"),
   ("Pts/PPJ", "Pontos/Partida"),
   ("xG", "Gols previstos"),
   ("xGA", "xG sofrido"),
   ("xGD", "Diferença xG"),
   ("xGD/90", "Diferença xG/90"),
   ("Últimos 5", "Últimas cinco partidas"),
   ("Público", "Comparecimento/Jogo")]

/-- `df.rename(columns=COLUMN_TRANSLATIONS)` applied to one column label:
the translation if the dictionary has an entry, the label itself
otherwise. -/
def translate (name : String) : String :=
  match COLUMN_TRANSLATIONS.lookup name with
  | some t => t
  | none => name

/-- Leading-whitespace removal on a character list. -/
def dropLeadingWS : List Char → List Char
  | [] => []
  | c :: cs => if c.isWhitespace then dropLeadingWS cs else c :: cs

/-- Python's `str.strip()` with no argument: remove leading and trailing
whitespace from a string. -/
def strip (s : String) : String :=
  ⟨(dropLeadingWS (dropLeadingWS s.data).reverse).reverse⟩

/-- One column of line 62: `' '.join(col).strip()` — join the header levels
with a single space, then strip surrounding whitespace. -/
def flattenName (levels : List String) : String :=
  strip (String.intercalate " " levels)

/-- Lines 61-62: if the columns form a MultiIndex, flatten each column's
header levels into one string; a flat index passes through unchanged. -/
def flattenHeaders (df : PandasDF) : FlatDF :=
  match df.cols with
  | Columns.flat names => ⟨names, df.rows⟩
  | Columns.multi levelss => ⟨levelss.map flattenName, df.rows⟩

/-- Line 63: `df_pd.rename(columns=COLUMN_TRANSLATIONS)` — a pure rename of
the column labels; rows are untouched. -/
def renameCols (df : FlatDF) : FlatDF :=
  ⟨df.cols.map translate, df.rows⟩

/-- Line 65: `.drop_nulls()` — remove every row that contains at least one
null, keeping the remaining rows in order. -/
def drop_nulls (df : FlatDF) : FlatDF :=
  ⟨df.cols, df.rows.filter (fun r => !rowHasNull r)⟩

/-- The normalization applied to the extracted first table (lines 61-65):
header flattening, then column translation, then null-row elimination.
(`pl.from_pandas` itself is a representation change only; with its default
`nan_to_null=True` the NaN-to-null conversion is already reflected in
`Value.nullV` cells.) -/
def normalize (df : PandasDF) : FlatDF :=
  drop_nulls (renameCols (flattenHeaders df))

/-- The dictionary `SEASONS` of `src/principal.py` lines 35-42: label shown
in the UI, and the `season_code` passed to `load_data` (`None` marks the
current season). -/
def SEASONS : List (String × Option String) :=
  [("2023-2024 (Atual)", none),
   ("2022-2023", some "2022-2023"),
   ("2021-2022", some "2021-2022"),
   ("2020-2021", some "2020-2021"),
   ("2019-2020", some "2019-2020"),
   ("2018-2019", some "2018-2019")]

/-- The URL of the current-season listing (line 51). -/
def baseURL : String :=
  "https://fbref.com/pt/comps/Big5/Maiores-5-Ligas-Europeias-Estatisticas"

/-- Lines 48-51: `if season_code:` selects the season-specific URL for a
truthy `season_code` (a non-empty string) and the base URL otherwise
(`None`, and also the falsy empty string, faithful to Python truthiness). -/
def buildURL (season_code : Option String) : String :=
  match season_code with
  | none => baseURL
  | some s =>
      if s = "" then baseURL
      else "https://fbref.com/pt/comps/Big5/" ++ s ++ "/" ++ s ++
        "-Maiores-5-Ligas-Europeias-Estatisticas"

/-- Summary of what the external world does for one execution of the `try`
block (lines 56-59): `requests.get` raised a transport exception; or it
returned a response whose text `pd.read_html` parsed into a list of tables;
or `pd.read_html` raised (no table in the text — which is also where a
non-2xx error page ends up, since `requests.get` raises on no status). -/
inductive TryOutcome where
  | netExn : String → TryOutcome
  | parsed : List PandasDF → TryOutcome
  | parseExn : String → TryOutcome
deriving DecidableEq, Repr

/-- The `try` block of `load_data` (lines 56-66) as an `Except`: every
failure is an exception value carrying its message.  `tables[0]` on an
empty list raises `IndexError: list index out of range`. -/
def load_data_try (o : TryOutcome) : Except String FlatDF :=
  match o with
  | TryOutcome.netExn m => Except.error m
  | TryOutcome.parseExn m => Except.error m
  | TryOutcome.parsed [] => Except.error "list index out of range"
  | TryOutcome.parsed (t :: _) => Except.ok (normalize t)

/-- The result `load_data` hands back to its caller: the returned value
(`None` on failure) and the message shown via `st.error`, if any. -/
structure LoadResult where
  value : Option FlatDF
  message : Option String
deriving DecidableEq, Repr

/-- One uncached run of `load_data season_code` (lines 46-70), given the
world's behaviour `net` at each URL: the `except Exception` handler (lines
68-70) turns every exception into the message
`"Erro ao carregar dados: <e>"` plus a `None` return; the success path
returns the normalized table and no message. -/
def load_data (net : String → TryOutcome) (season_code : Option String) :
    LoadResult :=
  match load_data_try (net (buildURL season_code)) with
  | Except.ok df => ⟨some df, none⟩
  | Except.error m => ⟨none, some ("Erro ao carregar dados: " ++ m)⟩

/-- The store kept by `@st.cache_data` (line 45): for each argument tuple
(`season_code`) already called, the value the function returned — stored
unconditionally, whether it is a table or `None`. -/
abbrev Cache := List (Option String × Option FlatDF)

/-- What one call of the cached `load_data` produces: the value handed to
the caller, the cache store afterwards, and whether the function body (and
hence the Fetcher, `requests.get`) actually ran. -/
structure CallResult where
  value : Option FlatDF
  cache : Cache
  bodyRan : Bool
deriving DecidableEq, Repr

/-- One call of the `@st.cache_data`-decorated `load_data` (line 45): on a
key already in the store the memoized return value comes back and the body
does not run; on a miss the body runs once and its return value — `None`
included — is stored under the key. -/
def get_or_load (net : String → TryOutcome) (c : Cache)
    (season_code : Option String) : CallResult :=
  match c.lookup season_code with
  | some v => ⟨v, c, false⟩
  | none =>
      let v := (load_data net season_code).value
      ⟨v, (season_code, v) :: c, true⟩

/-- An extracted first table used as a concrete sample: the raw column
names `MP` and `V`, a first row whose `V` cell materialized as missing
(e.g. a `"—"` placeholder in an otherwise numeric column ends up as
NaN/null after type materialization), and a fully populated second row. -/
def sampleTable : PandasDF :=
  ⟨Columns.flat ["MP", "V"],
   [[Value.intV 10, Value.nullV], [Value.intV 3, Value.intV 4]]⟩

/-- A world in which every fetch succeeds and parses to `sampleTable`. -/
def sampleNet : String → TryOutcome :=
  fun _ => TryOutcome.parsed [sampleTable]

/-- A world in which `requests.get` always raises a transport exception. -/
def failNet : String → TryOutcome :=
  fun _ => TryOutcome.netExn "connection error"

/-- C4: header flattening joins a multi-level column's levels with a
single space and trims surrounding whitespace, leaves single-level headers
unchanged (so it is idempotent: re-flattening an already flattened frame
changes nothing), and the two-level header
`[("Geral","MP"), ("Geral","V")]` flattens to `["Geral MP", "Geral V"]`. -/
theorem header_flattening_spec :
    (∀ (ns : List String) (rows : List (List Value)),
      flattenHeaders ⟨Columns.flat ns, rows⟩ = ⟨ns, rows⟩) ∧
    (∀ (ls : List (List String)) (rows : List (List Value)),
      (flattenHeaders ⟨Columns.multi ls, rows⟩).cols
        = ls.map (fun l => strip (String.intercalate " " l))) ∧
    (∀ df : PandasDF,
      flattenHeaders
          ⟨Columns.flat (flattenHeaders df).cols, (flattenHeaders df).rows⟩
        = flattenHeaders df) ∧
    (flattenHeaders
        ⟨Columns.multi [["Geral", "MP"], ["Geral", "V"]], []⟩).cols
      = ["Geral MP", "Geral V"] :=
  ⟨fun _ _ => rfl, fun _ _ => rfl, fun _ => rfl, by decide⟩

/-- C5: column translation is a pure rename: the column list after
translation is exactly the image of the flattened column names under the
translation table (pointwise, so no column is merged or dropped and the
column count is preserved), the rows are untouched (so the row count is
unchanged), and the full pipeline's column set is the translated image of
the flattened columns; a name with an entry is translated
(`MP ↦ Jogos Disputados`), a name without one passes through verbatim
(`Equipe`). -/
theorem translation_pure_rename (pdf : PandasDF) (df : FlatDF) :
    (renameCols df).cols = df.cols.map translate ∧
    (renameCols df).cols.length = df.cols.length ∧
    (renameCols df).rows = df.rows ∧
    (normalize pdf).cols = (flattenHeaders pdf).cols.map translate ∧
    translate "MP" = "Jogos Disputados" ∧
    translate "Equipe" = "Equipe" :=
  ⟨rfl, (df.cols.length_map translate), rfl, rfl, by decide, by decide⟩

/-- C6: null-row elimination is idempotent (applying it twice equals
applying it once), monotone (the output row count is at most the input row
count), and lossless exactly on clean tables (the row count is preserved
iff no input row contained a missing value). -/
theorem drop_nulls_monotone_idempotent (df : FlatDF) :
    drop_nulls (drop_nulls df) = drop_nulls df ∧
    (drop_nulls df).rows.length ≤ df.rows.length ∧
    ((drop_nulls df).rows.length = df.rows.length ↔
      ∀ r ∈ df.rows, rowHasNull r = false) := by
  refine ⟨?_, List.length_filter_le _ df.rows, ?_⟩
  · simp [drop_nulls, List.filter_filter]
  · exact Iff.trans
      (List.filter_length_eq_length (p := fun r => !rowHasNull r) (l := df.rows))
      (by simp)

/-- C6 witness: the idempotence, monotonicity and the strict-loss direction
evaluated on the concrete `sampleTable` body (one null row of two). -/
theorem drop_nulls_monotone_idempotent_witness :
    drop_nulls (drop_nulls ⟨["MP", "V"], sampleTable.rows⟩)
        = drop_nulls ⟨["MP", "V"], sampleTable.rows⟩ ∧
    (drop_nulls ⟨["MP", "V"], sampleTable.rows⟩).rows.length
        ≤ (sampleTable.rows).length ∧
    ¬ (drop_nulls ⟨["MP", "V"], sampleTable.rows⟩).rows.length
        = (sampleTable.rows).length :=
  ⟨(drop_nulls_monotone_idempotent ⟨["MP", "V"], sampleTable.rows⟩).1,
   (drop_nulls_monotone_idempotent ⟨["MP", "V"], sampleTable.rows⟩).2.1,
   fun h =>
     absurd
       ((drop_nulls_monotone_idempotent ⟨["MP", "V"], sampleTable.rows⟩).2.2.mp h
         [Value.intV 10, Value.nullV] (by decide))
       (by decide)⟩

/-- C7: null-row elimination removes exactly the rows containing a missing
value — every surviving row is null-free, the output is the in-order
filter of the input (no partial retention or imputation), and the concrete
row `{"MP": 10, "V": <unparseable>}` of `sampleTable` is excluded entirely
while the clean row survives, under the translated column names. -/
theorem null_rows_removed (df : FlatDF) :
    (∀ r ∈ (drop_nulls df).rows, rowHasNull r = false) ∧
    (drop_nulls df).rows = df.rows.filter (fun r => !rowHasNull r) ∧
    normalize sampleTable
      = ⟨["Jogos Disputados", "Vitórias"], [[Value.intV 3, Value.intV 4]]⟩ := by
  refine ⟨?_, rfl, by decide⟩
  intro r hr
  simpa using (List.of_mem_filter (p := fun r => !rowHasNull r) hr)

/-- C7 witness: the no-null-survives property evaluated on the surviving
row of `sampleTable`. -/
theorem null_rows_removed_witness :
    rowHasNull [Value.intV 3, Value.intV 4] = false :=
  (null_rows_removed ⟨["MP", "V"], sampleTable.rows⟩).1
    [Value.intV 3, Value.intV 4] (by decide)

/-- C9: the pipeline never reorders surviving rows: header flattening and
translation leave the row list untouched, null-row elimination is an
in-order filter, and hence the normalized rows form an order-preserving
sublist of the extracted table's rows. -/
theorem row_order_preserved (df : PandasDF) :
    (flattenHeaders df).rows = df.rows ∧
    (renameCols (flattenHeaders df)).rows = df.rows ∧
    (normalize df).rows = df.rows.filter (fun r => !rowHasNull r) ∧
    List.Sublist (normalize df).rows df.rows := by
  have hflat : (flattenHeaders df).rows = df.rows := by
    cases h : df.cols <;> simp [flattenHeaders, h]
  refine ⟨hflat, ?_, ?_, ?_⟩
  · simpa [renameCols] using hflat
  · simp [normalize, drop_nulls, renameCols, hflat]
  · simp only [normalize, drop_nulls, renameCols, hflat]
    exact List.filter_sublist df.rows

/-- C3: for every entry of the configured season enumeration, the fetch
URL is the base listing URL when the season code is the reserved current
marker (`None`), and otherwise interpolates the literal season string into
both the path segment and the filename segment of the URL template. -/
theorem url_season_segments (p : String × Option String) (hp : p ∈ SEASONS) :
    buildURL p.2 =
      match p.2 with
      | none => baseURL
      | some s =>
          "https://fbref.com/pt/comps/Big5/" ++ s ++ "/" ++ s ++
            "-Maiores-5-Ligas-Europeias-Estatisticas" := by
  fin_cases hp <;> rfl

/-- C3 witness: the `"2021-2022"` entry yields the URL containing
`.../2021-2022/2021-2022-<suffix>`, and the current marker yields the
base URL. -/
theorem url_season_segments_witness :
    ("2021-2022", some "2021-2022") ∈ SEASONS ∧
    buildURL (some "2021-2022") =
      "https://fbref.com/pt/comps/Big5/2021-2022/2021-2022-Maiores-5-Ligas-Europeias-Estatisticas" ∧
    ("2023-2024 (Atual)", (none : Option String)) ∈ SEASONS ∧
    buildURL none = baseURL :=
  ⟨by decide,
   url_season_segments ("2021-2022", some "2021-2022") (by decide),
   by decide,
   url_season_segments ("2023-2024 (Atual)", none) (by decide)⟩

/-- C8: a transport exception and a parse exception with the same
underlying message produce literally identical caller-visible outcomes
(`None` plus one uniform `"Erro ao carregar dados: ..."` message), and the
no-table case (`tables[0]` on an empty list) collapses to the same shape —
one error path with no subtype distinguished. -/
theorem error_paths_collapse (m : String) (key : Option String) :
    load_data (fun _ => TryOutcome.netExn m) key
      = load_data (fun _ => TryOutcome.parseExn m) key ∧
    load_data (fun _ => TryOutcome.netExn m) key
      = ⟨none, some ("Erro ao carregar dados: " ++ m)⟩ ∧
    load_data (fun _ => TryOutcome.parsed []) key
      = ⟨none, some ("Erro ao carregar dados: " ++ "list index out of range")⟩ :=
  ⟨rfl, rfl, rfl⟩

/-- C10: `load_data` is total at its public interface: for every world and
every `season_code` it either returns a table with no error message, or
returns `None` together with one reported `"Erro ao carregar dados: ..."`
message — no exception ever propagates to the caller. -/
theorem load_data_total (net : String → TryOutcome) (season_code : Option String) :
    (∃ df, load_data net season_code = ⟨some df, none⟩) ∨
    (∃ m, load_data net season_code
        = ⟨none, some ("Erro ao carregar dados: " ++ m)⟩) := by
  cases h : load_data_try (net (buildURL season_code)) with
  | ok df => exact Or.inl ⟨df, by simp [load_data, h]⟩
  | error m => exact Or.inr ⟨m, by simp [load_data, h]⟩

/-- C2: after a successful first call for a fresh `season_key`, a second
call with the same key returns the identical stored StatTable, does not
run the body again (so the Fetcher and Normalizer are not re-invoked), and
leaves the cache unchanged. -/
theorem cache_hit_no_new_fetch (net : String → TryOutcome) (c : Cache)
    (key : Option String) (df : FlatDF)
    (hmiss : c.lookup key = none)
    (hsucc : (load_data net key).value = some df) :
    (get_or_load net c key).value = some df ∧
    (get_or_load net (get_or_load net c key).cache key).value = some df ∧
    (get_or_load net (get_or_load net c key).cache key).bodyRan = false ∧
    (get_or_load net (get_or_load net c key).cache key).cache
      = (get_or_load net c key).cache := by
  simp [get_or_load, hmiss, hsucc, List.lookup]

/-- C2 witness: in the always-succeeding sample world, the second call for
season "2021-2022" serves the stored table without running the body. -/
theorem cache_hit_no_new_fetch_witness :
    ([] : Cache).lookup (some "2021-2022") = none ∧
    (load_data sampleNet (some "2021-2022")).value = some (normalize sampleTable) ∧
    (get_or_load sampleNet
        (get_or_load sampleNet [] (some "2021-2022")).cache
        (some "2021-2022")).value = some (normalize sampleTable) ∧
    (get_or_load sampleNet
        (get_or_load sampleNet [] (some "2021-2022")).cache
        (some "2021-2022")).bodyRan = false :=
  ⟨rfl, rfl,
   (cache_hit_no_new_fetch sampleNet [] (some "2021-2022")
      (normalize sampleTable) rfl rfl).2.1,
   (cache_hit_no_new_fetch sampleNet [] (some "2021-2022")
      (normalize sampleTable) rfl rfl).2.2.1⟩

/-- C1 counterexample: in a world in which every fetch raises, the first
cached call for season "2021-2022" fails (returns `None`), yet the second
call with the same key does not run the body — `@st.cache_data` memoized
the `None` return, so the Fetcher is not re-invoked, contrary to the
claim. -/
theorem no_negative_caching_counterexample :
    (get_or_load failNet [] (some "2021-2022")).value = none ∧
    ¬ (get_or_load failNet (get_or_load failNet [] (some "2021-2022")).cache
        (some "2021-2022")).bodyRan = true := by
  decide

/-- C1 amended: a failed first call is negatively cached: the `None`
return is stored under the key, and a second call with the same key
returns the cached `None` without re-invoking the Fetcher. -/
theorem failure_is_cached (net : String → TryOutcome) (c : Cache)
    (key : Option String) (hmiss : c.lookup key = none)
    (hfail : (load_data net key).value = none) :
    (get_or_load net c key).value = none ∧
    (get_or_load net c key).cache.lookup key = some none ∧
    (get_or_load net (get_or_load net c key).cache key).value = none ∧
    (get_or_load net (get_or_load net c key).cache key).bodyRan = false := by
  simp [get_or_load, hmiss, hfail, List.lookup]

/-- C1 amended witness: the negative-caching behaviour evaluated in the
always-failing world on an empty cache. -/
theorem failure_is_cached_witness :
    ([] : Cache).lookup (some "2021-2022") = none ∧
    (load_data failNet (some "2021-2022")).value = none ∧
    (get_or_load failNet (get_or_load failNet [] (some "2021-2022")).cache
        (some "2021-2022")).bodyRan = false :=
  ⟨rfl, rfl,
   (failure_is_cached failNet [] (some "2021-2022") rfl rfl).2.2.2⟩

end Principal
